import Mathlib

/-!
Verification of `src/multiomics_integrator.py` (multi-omics-enteric-neurons).

The program is a two-stage PCA pipeline: four per-layer PCA reductions, a
column-wise concatenation, and a joint PCA.  Matrices are modelled as numpy
arrays: a shape header (rows, cols) plus rational entries.  The PCA numeric
routine itself is scikit-learn library code, not part of this repository, so
it is modelled from the spec as an abstract deterministic kernel subject to
the shape contract the spec states; everything else (`MultiOmicsIntegrator`,
`fit_transform`, `demo`) is translated from the source line by line.
-/

/-- A 2-D numeric array in the numpy style: a shape header plus row-major
entries.  Entries are rationals (the claims under study do not depend on
floating-point rounding). -/
structure Mat where
  rows : Nat
  cols : Nat
  data : List (List ℚ)
deriving DecidableEq, Repr

/-- Well-formedness: the data list matches the shape header. -/
def Mat.WF (m : Mat) : Prop :=
  m.data.length = m.rows ∧ ∀ r ∈ m.data, r.length = m.cols

instance (m : Mat) : Decidable m.WF := by
  unfold Mat.WF; infer_instance

/-- `np.hstack` on two 2-D arrays with equal row counts: rows are joined
pairwise, column counts add. -/
def Mat.hstack2 (a b : Mat) : Mat :=
  ⟨a.rows, a.cols + b.cols, (a.data.zip b.data).map fun p => p.1 ++ p.2⟩

/-- `np.hstack [a, b, c, d]`, the four-argument concatenation used by
`fit_transform`. -/
def Mat.hstack4 (a b c d : Mat) : Mat :=
  Mat.hstack2 (Mat.hstack2 (Mat.hstack2 a b) c) d

/-- The error taxonomy of the spec (§7): `ShapeMismatch` for the integrator's
own row-count check, `InvalidShape` for the decomposition's validity check. -/
inductive IntErr where
  | ShapeMismatch
  | InvalidShape
deriving DecidableEq, Repr

/-- One PCA reducer object: its construction parameters and, after fitting,
the retained basis (modelled abstractly as a matrix). -/
structure PCA where
  n_components : Nat
  random_state : Option Int
  fitted : Option Mat
deriving DecidableEq, Repr

/-- `PCA(n_components=k, random_state=seed)`: a freshly constructed, unfitted
reducer. -/
def PCA.make (k : Nat) (seed : Option Int) : PCA :=
  ⟨k, seed, none⟩

/-- Modelled from the spec: the scikit-learn PCA numeric core is not part of
this repository.  `run k seed X` is the latent matrix `PCA(k, seed).fit_transform(X)`
returns, and `fitBasis k seed X` is the basis the fitted reducer retains; both
are deterministic functions of the component count, the seed and the data
(spec §4.1: deterministic given a fixed random seed). -/
structure PCAKernel where
  run : Nat → Option Int → Mat → Mat
  fitBasis : Nat → Option Int → Mat → Mat

/-- The shape contract of the decomposition routine (spec §4.1): on any input
it returns a latent matrix with the input's row count, `n_components` columns,
and well-formed data. -/
def KernelShapeOK (K : PCAKernel) : Prop :=
  ∀ k seed X, (K.run k seed X).rows = X.rows ∧ (K.run k seed X).cols = k ∧
    (K.run k seed X).WF

/-- Modelled from the spec: `p.fit_transform(X)` of a scikit-learn PCA object.
The routine validates `n_components ≤ min(n_samples, n_features)` before
touching the estimator and raises otherwise (spec §4.1 / §7 `InvalidShape`);
on success it returns the latent matrix and the reducer now retaining the
fitted basis. -/
def PCA.fitTransform (K : PCAKernel) (p : PCA) (X : Mat) :
    Except IntErr (Mat × PCA) :=
  if p.n_components ≤ min X.rows X.cols then
    .ok (K.run p.n_components p.random_state X,
         { p with fitted := some (K.fitBasis p.n_components p.random_state X) })
  else
    .error .InvalidShape

/-- The integrator dataclass: configuration fields plus the five PCA reducers
created by `__post_init__`. -/
structure MultiOmicsIntegrator where
  n_components : Nat
  random_state : Option Int
  pca_metabolomics : PCA
  pca_bulk_rna : PCA
  pca_spatial : PCA
  pca_sc_rna : PCA
  pca_joint : PCA
deriving DecidableEq, Repr

/-- `MultiOmicsIntegrator(n_components=k, random_state=seed)`:
`__post_init__` constructs the five reducers with the same configuration. -/
def MultiOmicsIntegrator.make (k : Nat) (seed : Option Int) :
    MultiOmicsIntegrator :=
  ⟨k, seed, PCA.make k seed, PCA.make k seed, PCA.make k seed,
   PCA.make k seed, PCA.make k seed⟩

/-- `MultiOmicsIntegrator.fit_transform`, translated statement by statement
from the source: the row-count sanity check, the four per-layer fits (each
mutating its reducer in place on success), the `np.hstack` concatenation in
the order metabolomics, bulk RNA, spatial, single-cell, and the joint fit.
The Python object mutation is made explicit: the returned integrator carries
every reducer update that happened before the call returned or raised. -/
def MultiOmicsIntegrator.fitTransform (K : PCAKernel)
    (self : MultiOmicsIntegrator)
    (metabolomics bulk_rna spatial_trans sc_rna : Mat) :
    Except IntErr Mat × MultiOmicsIntegrator :=
  let n_samples := metabolomics.rows
  if bulk_rna.rows = n_samples ∧ spatial_trans.rows = n_samples ∧
      sc_rna.rows = n_samples then
    match PCA.fitTransform K self.pca_metabolomics metabolomics with
    | .error e => (.error e, self)
    | .ok (latent_metabolomics, pm) =>
      let self := { self with pca_metabolomics := pm }
      match PCA.fitTransform K self.pca_bulk_rna bulk_rna with
      | .error e => (.error e, self)
      | .ok (latent_bulk, pb) =>
        let self := { self with pca_bulk_rna := pb }
        match PCA.fitTransform K self.pca_spatial spatial_trans with
        | .error e => (.error e, self)
        | .ok (latent_spatial, ps) =>
          let self := { self with pca_spatial := ps }
          match PCA.fitTransform K self.pca_sc_rna sc_rna with
          | .error e => (.error e, self)
          | .ok (latent_sc, pc) =>
            let self := { self with pca_sc_rna := pc }
            let concatenated :=
              Mat.hstack4 latent_metabolomics latent_bulk latent_spatial
                latent_sc
            match PCA.fitTransform K self.pca_joint concatenated with
            | .error e => (.error e, self)
            | .ok (integrated_latent, pj) =>
              (.ok integrated_latent, { self with pca_joint := pj })
  else
    (.error .ShapeMismatch, self)

/-- Modelled from the spec: `np.random.default_rng(seed).standard_normal`.
The source draws four matrices in sequence from one generator; the model
indexes the draws (0..3).  Deterministic in the seed, draw index and shape. -/
structure SyntheticGen where
  standardNormal : Option Int → Nat → Nat → Nat → Mat

/-- Shape contract of the synthetic generator: draw `(seed, i, n, p)` is a
well-formed matrix of shape `(n, p)`. -/
def GenShapeOK (g : SyntheticGen) : Prop :=
  ∀ seed i n p, (g.standardNormal seed i n p).rows = n ∧
    (g.standardNormal seed i n p).cols = p ∧ (g.standardNormal seed i n p).WF

/-- The `demo` entry point, translated from the source: four synthetic layers
of widths 50, 1000, 200, 500 with `n_samples` rows, an integrator with
`n_components=10` and the given seed, one `fit_transform` call.  The source
returns the latent and the fitted integrator (or propagates the error). -/
def demo (K : PCAKernel) (g : SyntheticGen) (n_samples : Nat)
    (random_state : Option Int) : Except IntErr Mat × MultiOmicsIntegrator :=
  let metabolomics := g.standardNormal random_state 0 n_samples 50
  let bulk_rna := g.standardNormal random_state 1 n_samples 1000
  let spatial_trans := g.standardNormal random_state 2 n_samples 200
  let sc_rna := g.standardNormal random_state 3 n_samples 500
  let integrator := MultiOmicsIntegrator.make 10 random_state
  MultiOmicsIntegrator.fitTransform K integrator metabolomics bulk_rna
    spatial_trans sc_rna

/-- Unfolding lemma: a PCA fit that passes the validity check. -/
theorem PCA.fitTransform_pos (K : PCAKernel) (p : PCA) (X : Mat)
    (h : p.n_components ≤ min X.rows X.cols) :
    PCA.fitTransform K p X =
      .ok (K.run p.n_components p.random_state X,
           { p with
             fitted := some (K.fitBasis p.n_components p.random_state X) }) := by
  unfold PCA.fitTransform
  rw [if_pos h]

/-- Unfolding lemma: a PCA fit that fails the validity check. -/
theorem PCA.fitTransform_neg (K : PCAKernel) (p : PCA) (X : Mat)
    (h : ¬ p.n_components ≤ min X.rows X.cols) :
    PCA.fitTransform K p X = .error .InvalidShape := by
  unfold PCA.fitTransform
  rw [if_neg h]

/-- The concatenation of the four per-layer latents, in the order the source
fixes. -/
def jointInput (K : PCAKernel) (k : Nat) (seed : Option Int)
    (m b s c : Mat) : Mat :=
  Mat.hstack4 (K.run k seed m) (K.run k seed b) (K.run k seed s)
    (K.run k seed c)

/-- The integrator state after a successful `fit_transform` on a fresh
instance: every reducer retains the basis fitted on that call's data. -/
def fittedState (K : PCAKernel) (k : Nat) (seed : Option Int)
    (m b s c : Mat) : MultiOmicsIntegrator :=
  ⟨k, seed,
   ⟨k, seed, some (K.fitBasis k seed m)⟩,
   ⟨k, seed, some (K.fitBasis k seed b)⟩,
   ⟨k, seed, some (K.fitBasis k seed s)⟩,
   ⟨k, seed, some (K.fitBasis k seed c)⟩,
   ⟨k, seed, some (K.fitBasis k seed (jointInput K k seed m b s c))⟩⟩

/-- An integrator whose configuration fields and all five reducer
configurations are `(k, seed)`; the reducers' fitted state is arbitrary.
`make` produces such a state and `fit_transform` preserves it. -/
def ConfiguredAs (ig : MultiOmicsIntegrator) (k : Nat)
    (seed : Option Int) : Prop :=
  ∃ f1 f2 f3 f4 f5 : Option Mat,
    ig = ⟨k, seed, ⟨k, seed, f1⟩, ⟨k, seed, f2⟩, ⟨k, seed, f3⟩,
          ⟨k, seed, f4⟩, ⟨k, seed, f5⟩⟩

/-- A fresh integrator is configured as built. -/
theorem make_configured (k : Nat) (seed : Option Int) :
    ConfiguredAs (MultiOmicsIntegrator.make k seed) k seed :=
  ⟨none, none, none, none, none, rfl⟩

/-- A fully fitted state is still configured the same way. -/
theorem fittedState_configured (K : PCAKernel) (k : Nat) (seed : Option Int)
    (m b s c : Mat) : ConfiguredAs (fittedState K k seed m b s c) k seed :=
  ⟨_, _, _, _, _, rfl⟩

/-- Characterization of a successful run on any integrator configured as
`(k, seed)` (whatever its reducers' prior fitted state): under the validity
preconditions the call returns the joint PCA of the ordered concatenation of
the four per-layer latents, and the resulting state is `fittedState` — every
prior fitted basis is overwritten. -/
theorem fitTransform_success_cfg (K : PCAKernel) (hK : KernelShapeOK K)
    (self : MultiOmicsIntegrator) (k : Nat) (seed : Option Int)
    (hcfg : ConfiguredAs self k seed) (m b s c : Mat)
    (hb : b.rows = m.rows) (hs : s.rows = m.rows) (hc : c.rows = m.rows)
    (hn : k ≤ m.rows) (hcm : k ≤ m.cols) (hcb : k ≤ b.cols)
    (hcs : k ≤ s.cols) (hcc : k ≤ c.cols) :
    MultiOmicsIntegrator.fitTransform K self m b s c =
      (.ok (K.run k seed (jointInput K k seed m b s c)),
       fittedState K k seed m b s c) := by
  obtain ⟨f1, f2, f3, f4, f5, rfl⟩ := hcfg
  have hKm := hK k seed m
  have hKb := hK k seed b
  have hKs := hK k seed s
  have hKc := hK k seed c
  have hjrows : (jointInput K k seed m b s c).rows = m.rows := by
    simp [jointInput, Mat.hstack4, Mat.hstack2, hKm.1]
  have hjcols : (jointInput K k seed m b s c).cols = k + k + k + k := by
    simp [jointInput, Mat.hstack4, Mat.hstack2, hKm.2.1, hKb.2.1, hKs.2.1,
      hKc.2.1]
  unfold MultiOmicsIntegrator.fitTransform
  rw [if_pos ⟨hb, hs, hc⟩]
  rw [PCA.fitTransform_pos K ⟨k, seed, f1⟩ m (le_min hn hcm)]
  simp only []
  rw [PCA.fitTransform_pos K ⟨k, seed, f2⟩ b (by rw [hb]; exact le_min hn hcb)]
  simp only []
  rw [PCA.fitTransform_pos K ⟨k, seed, f3⟩ s (by rw [hs]; exact le_min hn hcs)]
  simp only []
  rw [PCA.fitTransform_pos K ⟨k, seed, f4⟩ c (by rw [hc]; exact le_min hn hcc)]
  simp only []
  rw [show Mat.hstack4 (K.run k seed m) (K.run k seed b) (K.run k seed s)
        (K.run k seed c) = jointInput K k seed m b s c from rfl]
  rw [PCA.fitTransform_pos K ⟨k, seed, f5⟩ (jointInput K k seed m b s c)
    (by simp only [hjrows, hjcols]; omega)]
  simp only []
  rfl

/-- Specialization of `fitTransform_success_cfg` to a freshly constructed
integrator. -/
theorem fitTransform_success (K : PCAKernel) (hK : KernelShapeOK K)
    (k : Nat) (seed : Option Int) (m b s c : Mat)
    (hb : b.rows = m.rows) (hs : s.rows = m.rows) (hc : c.rows = m.rows)
    (hn : k ≤ m.rows) (hcm : k ≤ m.cols) (hcb : k ≤ b.cols)
    (hcs : k ≤ s.cols) (hcc : k ≤ c.cols) :
    MultiOmicsIntegrator.fitTransform K (MultiOmicsIntegrator.make k seed)
        m b s c =
      (.ok (K.run k seed (jointInput K k seed m b s c)),
       fittedState K k seed m b s c) :=
  fitTransform_success_cfg K hK _ k seed (make_configured k seed) m b s c
    hb hs hc hn hcm hcb hcs hcc

/-- The all-zeros matrix of a given shape: a concrete well-formed input used
to instantiate theorems at concrete data. -/
def zerosMat (n p : Nat) : Mat :=
  ⟨n, p, List.replicate n (List.replicate p 0)⟩

/-- The zeros matrix is well formed. -/
theorem zerosMat_WF (n p : Nat) : (zerosMat n p).WF := by
  constructor
  · simp [zerosMat]
  · intro r hr
    simp only [zerosMat, List.mem_replicate] at hr
    simp [hr.2, zerosMat]

/-- A concrete PCA kernel satisfying the shape contract (used to evaluate the
development at concrete inputs): it returns zero matrices of the contractual
shapes. -/
def K0 : PCAKernel :=
  ⟨fun k _ X => zerosMat X.rows k, fun k _ X => zerosMat k X.cols⟩

/-- `K0` satisfies the decomposition shape contract. -/
theorem K0_shape_ok : KernelShapeOK K0 :=
  fun k _ X => ⟨rfl, rfl, zerosMat_WF X.rows k⟩

/-- A concrete synthetic generator satisfying the shape contract. -/
def g0 : SyntheticGen :=
  ⟨fun _ _ n p => zerosMat n p⟩

/-- `g0` satisfies the generator shape contract. -/
theorem g0_shape_ok : GenShapeOK g0 :=
  fun _ _ n p => ⟨rfl, rfl, zerosMat_WF n p⟩

/-- The call frame of one `fit_transform` invocation: the bound object and
the four argument arrays.  `fitTransformFrame` below is the same procedure as
`MultiOmicsIntegrator.fitTransform`, written over this frame so that which
locations the body assigns to is explicit: every statement of the source
reads the argument arrays and writes only reducer fields of `integ`. -/
structure CallFrame where
  integ : MultiOmicsIntegrator
  metabolomics : Mat
  bulk_rna : Mat
  spatial_trans : Mat
  sc_rna : Mat
deriving DecidableEq, Repr

/-- `fit_transform` over an explicit call frame, translated statement by
statement from the source exactly as `MultiOmicsIntegrator.fitTransform`. -/
def fitTransformFrame (K : PCAKernel) (st : CallFrame) :
    Except IntErr Mat × CallFrame :=
  let n_samples := st.metabolomics.rows
  if st.bulk_rna.rows = n_samples ∧ st.spatial_trans.rows = n_samples ∧
      st.sc_rna.rows = n_samples then
    match PCA.fitTransform K st.integ.pca_metabolomics st.metabolomics with
    | .error e => (.error e, st)
    | .ok (latent_metabolomics, pm) =>
      let st := { st with integ := { st.integ with pca_metabolomics := pm } }
      match PCA.fitTransform K st.integ.pca_bulk_rna st.bulk_rna with
      | .error e => (.error e, st)
      | .ok (latent_bulk, pb) =>
        let st := { st with integ := { st.integ with pca_bulk_rna := pb } }
        match PCA.fitTransform K st.integ.pca_spatial st.spatial_trans with
        | .error e => (.error e, st)
        | .ok (latent_spatial, ps) =>
          let st := { st with integ := { st.integ with pca_spatial := ps } }
          match PCA.fitTransform K st.integ.pca_sc_rna st.sc_rna with
          | .error e => (.error e, st)
          | .ok (latent_sc, pc) =>
            let st := { st with integ := { st.integ with pca_sc_rna := pc } }
            let concatenated :=
              Mat.hstack4 latent_metabolomics latent_bulk latent_spatial
                latent_sc
            match PCA.fitTransform K st.integ.pca_joint concatenated with
            | .error e => (.error e, st)
            | .ok (integrated_latent, pj) =>
              (.ok integrated_latent,
               { st with integ := { st.integ with pca_joint := pj } })
  else
    (.error .ShapeMismatch, st)

/-- C1: for every four input matrices with the same row count n, with
n ≥ n_components and each layer's column count ≥ n_components,
`fit_transform` returns a matrix of shape (n, n_components). -/
theorem C1_output_shape (K : PCAKernel) (hK : KernelShapeOK K)
    (k n : Nat) (seed : Option Int) (m b s c : Mat)
    (hm : m.rows = n) (hb : b.rows = n) (hs : s.rows = n) (hc : c.rows = n)
    (hn : k ≤ n) (hcm : k ≤ m.cols) (hcb : k ≤ b.cols)
    (hcs : k ≤ s.cols) (hcc : k ≤ c.cols) :
    ∃ out ig,
      MultiOmicsIntegrator.fitTransform K (MultiOmicsIntegrator.make k seed)
          m b s c = (.ok out, ig) ∧
      out.rows = n ∧ out.cols = k ∧ out.WF := by
  refine ⟨_, _, fitTransform_success K hK k seed m b s c
    (by omega) (by omega) (by omega) (by omega) hcm hcb hcs hcc, ?_, ?_, ?_⟩
  · rw [(hK k seed _).1]
    simp [jointInput, Mat.hstack4, Mat.hstack2, (hK k seed m).1, hm]
  · exact (hK k seed _).2.1
  · exact (hK k seed _).2.2

/-- Witness for C1 at concrete data: k = 1, n = 2, four zero matrices. -/
theorem C1_output_shape_witness :
    ∃ out ig,
      MultiOmicsIntegrator.fitTransform K0 (MultiOmicsIntegrator.make 1 none)
          (zerosMat 2 1) (zerosMat 2 3) (zerosMat 2 4) (zerosMat 2 5) =
        (.ok out, ig) ∧
      out.rows = 2 ∧ out.cols = 1 ∧ out.WF :=
  C1_output_shape K0 K0_shape_ok 1 2 none
    (zerosMat 2 1) (zerosMat 2 3) (zerosMat 2 4) (zerosMat 2 5)
    rfl rfl rfl rfl (by decide) (by decide) (by decide) (by decide) (by decide)

/-- C2: when the four inputs do not all share the same row count,
`fit_transform` returns the `ShapeMismatch` error and the integrator state is
returned exactly as it was — no reducer was fit, no partial state was
committed. -/
theorem C2_row_mismatch_fail_fast (K : PCAKernel)
    (self : MultiOmicsIntegrator) (m b s c : Mat)
    (h : ¬ (b.rows = m.rows ∧ s.rows = m.rows ∧ c.rows = m.rows)) :
    MultiOmicsIntegrator.fitTransform K self m b s c =
      (.error .ShapeMismatch, self) := by
  unfold MultiOmicsIntegrator.fitTransform
  rw [if_neg h]

/-- Witness for C2: rows 2 versus 3, arbitrary integrator. -/
theorem C2_row_mismatch_fail_fast_witness :
    MultiOmicsIntegrator.fitTransform K0 (MultiOmicsIntegrator.make 1 none)
        (zerosMat 2 1) (zerosMat 3 1) (zerosMat 2 1) (zerosMat 2 1) =
      (.error .ShapeMismatch, MultiOmicsIntegrator.make 1 none) :=
  C2_row_mismatch_fail_fast K0 (MultiOmicsIntegrator.make 1 none)
    (zerosMat 2 1) (zerosMat 3 1) (zerosMat 2 1) (zerosMat 2 1) (by decide)

/-- C5: two-run determinism: with a fixed configuration (n_components,
a set random_state) and identical inputs, two `fit_transform` calls on two
freshly constructed integrators return equal outputs (result and state). -/
theorem C5_two_run_determinism (K : PCAKernel) (k : Nat) (seed : Int)
    (m1 b1 s1 c1 m2 b2 s2 c2 : Mat)
    (h : m1 = m2 ∧ b1 = b2 ∧ s1 = s2 ∧ c1 = c2) :
    MultiOmicsIntegrator.fitTransform K
        (MultiOmicsIntegrator.make k (some seed)) m1 b1 s1 c1 =
      MultiOmicsIntegrator.fitTransform K
        (MultiOmicsIntegrator.make k (some seed)) m2 b2 s2 c2 := by
  obtain ⟨h1, h2, h3, h4⟩ := h
  rw [h1, h2, h3, h4]

/-- Witness for C5 at concrete data, seed 42. -/
theorem C5_two_run_determinism_witness :
    MultiOmicsIntegrator.fitTransform K0
        (MultiOmicsIntegrator.make 1 (some 42))
        (zerosMat 2 1) (zerosMat 2 1) (zerosMat 2 1) (zerosMat 2 1) =
      MultiOmicsIntegrator.fitTransform K0
        (MultiOmicsIntegrator.make 1 (some 42))
        (zerosMat 2 1) (zerosMat 2 1) (zerosMat 2 1) (zerosMat 2 1) :=
  C5_two_run_determinism K0 1 42
    (zerosMat 2 1) (zerosMat 2 1) (zerosMat 2 1) (zerosMat 2 1)
    (zerosMat 2 1) (zerosMat 2 1) (zerosMat 2 1) (zerosMat 2 1)
    ⟨rfl, rfl, rfl, rfl⟩

/-- Counterexample to C3 as stated: an input in which one matrix (5 rows) is
smaller than n_components = 10, yet the call raises `ShapeMismatch`, not
`InvalidShape`, because the row counts also differ (5 vs 7) and the row-count
check runs first. -/
theorem C3_counterexample :
    (zerosMat 5 5).rows < 10 ∧
    (MultiOmicsIntegrator.fitTransform K0 (MultiOmicsIntegrator.make 10 none)
        (zerosMat 5 5) (zerosMat 7 7) (zerosMat 7 7) (zerosMat 7 7)).1 =
      .error .ShapeMismatch ∧
    IntErr.ShapeMismatch ≠ IntErr.InvalidShape :=
  ⟨by decide, rfl, by decide⟩

/-- C3 (amended): provided the four inputs share the same row count n, if n
or some layer's column count is smaller than n_components, the call returns
the `InvalidShape` error and produces no output. -/
theorem C3_invalid_shape_equal_rows (K : PCAKernel) (k n : Nat)
    (seed : Option Int) (m b s c : Mat)
    (hm : m.rows = n) (hb : b.rows = n) (hs : s.rows = n) (hc : c.rows = n)
    (hsmall : n < k ∨ m.cols < k ∨ b.cols < k ∨ s.cols < k ∨ c.cols < k) :
    (MultiOmicsIntegrator.fitTransform K (MultiOmicsIntegrator.make k seed)
        m b s c).1 = .error .InvalidShape := by
  unfold MultiOmicsIntegrator.fitTransform
  simp only [MultiOmicsIntegrator.make, PCA.make]
  rw [if_pos ⟨by omega, by omega, by omega⟩]
  by_cases h1 : k ≤ min m.rows m.cols
  · rw [PCA.fitTransform_pos K ⟨k, seed, none⟩ m h1]
    simp only []
    by_cases h2 : k ≤ min b.rows b.cols
    · rw [PCA.fitTransform_pos K ⟨k, seed, none⟩ b h2]
      simp only []
      by_cases h3 : k ≤ min s.rows s.cols
      · rw [PCA.fitTransform_pos K ⟨k, seed, none⟩ s h3]
        simp only []
        by_cases h4 : k ≤ min c.rows c.cols
        · exfalso; omega
        · rw [PCA.fitTransform_neg K ⟨k, seed, none⟩ c h4]
      · rw [PCA.fitTransform_neg K ⟨k, seed, none⟩ s h3]
    · rw [PCA.fitTransform_neg K ⟨k, seed, none⟩ b h2]
  · rw [PCA.fitTransform_neg K ⟨k, seed, none⟩ m h1]

/-- Witness for the amended C3: four 5×5 matrices with n_components = 10. -/
theorem C3_invalid_shape_equal_rows_witness :
    (MultiOmicsIntegrator.fitTransform K0 (MultiOmicsIntegrator.make 10 none)
        (zerosMat 5 5) (zerosMat 5 5) (zerosMat 5 5) (zerosMat 5 5)).1 =
      .error .InvalidShape :=
  C3_invalid_shape_equal_rows K0 10 5 none
    (zerosMat 5 5) (zerosMat 5 5) (zerosMat 5 5) (zerosMat 5 5)
    rfl rfl rfl rfl (Or.inl (by decide))

/-- C4: in a successful run the four per-layer latents are concatenated
column-wise in the fixed order metabolomics, bulk RNA, spatial, single-cell;
the concatenation has exactly 4 × n_components columns, and it is the matrix
the joint reducer is fit on (its retained basis is the basis of that
concatenation, and the returned latent is its joint projection). -/
theorem C4_concatenation_order_width (K : PCAKernel) (hK : KernelShapeOK K)
    (k : Nat) (seed : Option Int) (m b s c : Mat)
    (hb : b.rows = m.rows) (hs : s.rows = m.rows) (hc : c.rows = m.rows)
    (hn : k ≤ m.rows) (hcm : k ≤ m.cols) (hcb : k ≤ b.cols)
    (hcs : k ≤ s.cols) (hcc : k ≤ c.cols) :
    jointInput K k seed m b s c =
      Mat.hstack4 (K.run k seed m) (K.run k seed b) (K.run k seed s)
        (K.run k seed c) ∧
    (jointInput K k seed m b s c).cols = 4 * k ∧
    MultiOmicsIntegrator.fitTransform K (MultiOmicsIntegrator.make k seed)
        m b s c =
      (.ok (K.run k seed (jointInput K k seed m b s c)),
       fittedState K k seed m b s c) ∧
    (fittedState K k seed m b s c).pca_joint.fitted =
      some (K.fitBasis k seed (jointInput K k seed m b s c)) := by
  refine ⟨rfl, ?_,
    fitTransform_success K hK k seed m b s c hb hs hc hn hcm hcb hcs hcc,
    rfl⟩
  simp only [jointInput, Mat.hstack4, Mat.hstack2, (hK k seed m).2.1,
    (hK k seed b).2.1, (hK k seed s).2.1, (hK k seed c).2.1]
  omega

/-- Witness for C4 at concrete data. -/
theorem C4_concatenation_order_width_witness :
    jointInput K0 1 none (zerosMat 2 1) (zerosMat 2 3) (zerosMat 2 4)
        (zerosMat 2 5) =
      Mat.hstack4 (K0.run 1 none (zerosMat 2 1)) (K0.run 1 none (zerosMat 2 3))
        (K0.run 1 none (zerosMat 2 4)) (K0.run 1 none (zerosMat 2 5)) ∧
    (jointInput K0 1 none (zerosMat 2 1) (zerosMat 2 3) (zerosMat 2 4)
        (zerosMat 2 5)).cols = 4 * 1 ∧
    MultiOmicsIntegrator.fitTransform K0 (MultiOmicsIntegrator.make 1 none)
        (zerosMat 2 1) (zerosMat 2 3) (zerosMat 2 4) (zerosMat 2 5) =
      (.ok (K0.run 1 none (jointInput K0 1 none (zerosMat 2 1) (zerosMat 2 3)
         (zerosMat 2 4) (zerosMat 2 5))),
       fittedState K0 1 none (zerosMat 2 1) (zerosMat 2 3) (zerosMat 2 4)
         (zerosMat 2 5)) ∧
    (fittedState K0 1 none (zerosMat 2 1) (zerosMat 2 3) (zerosMat 2 4)
        (zerosMat 2 5)).pca_joint.fitted =
      some (K0.fitBasis 1 none (jointInput K0 1 none (zerosMat 2 1)
        (zerosMat 2 3) (zerosMat 2 4) (zerosMat 2 5))) :=
  C4_concatenation_order_width K0 K0_shape_ok 1 none
    (zerosMat 2 1) (zerosMat 2 3) (zerosMat 2 4) (zerosMat 2 5)
    rfl rfl rfl (by decide) (by decide) (by decide) (by decide) (by decide)

/-- C6: noninterference between the per-layer steps: each layer's latent and
fitted reducer depend only on that layer's own input matrix and the
configuration.  For two valid input tuples that agree on one layer, that
layer's standalone fit result is equal and the reducer stored by the two
`fit_transform` calls is equal, whatever the other three layers are. -/
theorem C6_per_layer_noninterference (K : PCAKernel) (hK : KernelShapeOK K)
    (k : Nat) (seed : Option Int) (m b s c m' b' s' c' : Mat)
    (hb : b.rows = m.rows) (hs : s.rows = m.rows) (hc : c.rows = m.rows)
    (hn : k ≤ m.rows) (hcm : k ≤ m.cols) (hcb : k ≤ b.cols)
    (hcs : k ≤ s.cols) (hcc : k ≤ c.cols)
    (hb' : b'.rows = m'.rows) (hs' : s'.rows = m'.rows)
    (hc' : c'.rows = m'.rows) (hn' : k ≤ m'.rows) (hcm' : k ≤ m'.cols)
    (hcb' : k ≤ b'.cols) (hcs' : k ≤ s'.cols) (hcc' : k ≤ c'.cols) :
    (m = m' →
      PCA.fitTransform K (PCA.make k seed) m =
        PCA.fitTransform K (PCA.make k seed) m' ∧
      (MultiOmicsIntegrator.fitTransform K (MultiOmicsIntegrator.make k seed)
          m b s c).2.pca_metabolomics =
        (MultiOmicsIntegrator.fitTransform K (MultiOmicsIntegrator.make k seed)
          m' b' s' c').2.pca_metabolomics) ∧
    (b = b' →
      PCA.fitTransform K (PCA.make k seed) b =
        PCA.fitTransform K (PCA.make k seed) b' ∧
      (MultiOmicsIntegrator.fitTransform K (MultiOmicsIntegrator.make k seed)
          m b s c).2.pca_bulk_rna =
        (MultiOmicsIntegrator.fitTransform K (MultiOmicsIntegrator.make k seed)
          m' b' s' c').2.pca_bulk_rna) ∧
    (s = s' →
      PCA.fitTransform K (PCA.make k seed) s =
        PCA.fitTransform K (PCA.make k seed) s' ∧
      (MultiOmicsIntegrator.fitTransform K (MultiOmicsIntegrator.make k seed)
          m b s c).2.pca_spatial =
        (MultiOmicsIntegrator.fitTransform K (MultiOmicsIntegrator.make k seed)
          m' b' s' c').2.pca_spatial) ∧
    (c = c' →
      PCA.fitTransform K (PCA.make k seed) c =
        PCA.fitTransform K (PCA.make k seed) c' ∧
      (MultiOmicsIntegrator.fitTransform K (MultiOmicsIntegrator.make k seed)
          m b s c).2.pca_sc_rna =
        (MultiOmicsIntegrator.fitTransform K (MultiOmicsIntegrator.make k seed)
          m' b' s' c').2.pca_sc_rna) := by
  rw [fitTransform_success K hK k seed m b s c hb hs hc hn hcm hcb hcs hcc,
      fitTransform_success K hK k seed m' b' s' c' hb' hs' hc' hn' hcm'
        hcb' hcs' hcc']
  refine ⟨?_, ?_, ?_, ?_⟩ <;> intro h <;> subst h <;> exact ⟨rfl, rfl⟩

/-- Witness for C6: two tuples sharing the metabolomics layer but differing
in the other three layers give the same stored metabolomics reducer. -/
theorem C6_per_layer_noninterference_witness :
    PCA.fitTransform K0 (PCA.make 1 none) (zerosMat 2 1) =
      PCA.fitTransform K0 (PCA.make 1 none) (zerosMat 2 1) ∧
    (MultiOmicsIntegrator.fitTransform K0 (MultiOmicsIntegrator.make 1 none)
        (zerosMat 2 1) (zerosMat 2 3) (zerosMat 2 4)
        (zerosMat 2 5)).2.pca_metabolomics =
      (MultiOmicsIntegrator.fitTransform K0 (MultiOmicsIntegrator.make 1 none)
        (zerosMat 2 1) (zerosMat 2 6) (zerosMat 2 7)
        (zerosMat 2 8)).2.pca_metabolomics :=
  (C6_per_layer_noninterference K0 K0_shape_ok 1 none
    (zerosMat 2 1) (zerosMat 2 3) (zerosMat 2 4) (zerosMat 2 5)
    (zerosMat 2 1) (zerosMat 2 6) (zerosMat 2 7) (zerosMat 2 8)
    rfl rfl rfl (by decide) (by decide) (by decide) (by decide) (by decide)
    rfl rfl rfl (by decide) (by decide) (by decide) (by decide)
    (by decide)).1 rfl

/-- C7: a second `fit_transform` call on the same instance refits everything
and discards all prior fitted state: for valid inputs to both calls, the
second call's result and resulting state equal those of a single call on a
freshly constructed integrator with the same configuration. -/
theorem C7_refit_discards_prior_state (K : PCAKernel) (hK : KernelShapeOK K)
    (k : Nat) (seed : Option Int) (m b s c m' b' s' c' : Mat)
    (hb : b.rows = m.rows) (hs : s.rows = m.rows) (hc : c.rows = m.rows)
    (hn : k ≤ m.rows) (hcm : k ≤ m.cols) (hcb : k ≤ b.cols)
    (hcs : k ≤ s.cols) (hcc : k ≤ c.cols)
    (hb' : b'.rows = m'.rows) (hs' : s'.rows = m'.rows)
    (hc' : c'.rows = m'.rows) (hn' : k ≤ m'.rows) (hcm' : k ≤ m'.cols)
    (hcb' : k ≤ b'.cols) (hcs' : k ≤ s'.cols) (hcc' : k ≤ c'.cols) :
    MultiOmicsIntegrator.fitTransform K
        (MultiOmicsIntegrator.fitTransform K
          (MultiOmicsIntegrator.make k seed) m b s c).2 m' b' s' c' =
      MultiOmicsIntegrator.fitTransform K (MultiOmicsIntegrator.make k seed)
        m' b' s' c' := by
  rw [fitTransform_success K hK k seed m b s c hb hs hc hn hcm hcb hcs hcc]
  exact (fitTransform_success_cfg K hK _ k seed
      (fittedState_configured K k seed m b s c) m' b' s' c'
      hb' hs' hc' hn' hcm' hcb' hcs' hcc').trans
    (fitTransform_success K hK k seed m' b' s' c'
      hb' hs' hc' hn' hcm' hcb' hcs' hcc').symm

/-- Witness for C7 at concrete data. -/
theorem C7_refit_discards_prior_state_witness :
    MultiOmicsIntegrator.fitTransform K0
        (MultiOmicsIntegrator.fitTransform K0
          (MultiOmicsIntegrator.make 1 none) (zerosMat 2 1) (zerosMat 2 3)
          (zerosMat 2 4) (zerosMat 2 5)).2
        (zerosMat 3 2) (zerosMat 3 2) (zerosMat 3 2) (zerosMat 3 2) =
      MultiOmicsIntegrator.fitTransform K0 (MultiOmicsIntegrator.make 1 none)
        (zerosMat 3 2) (zerosMat 3 2) (zerosMat 3 2) (zerosMat 3 2) :=
  C7_refit_discards_prior_state K0 K0_shape_ok 1 none
    (zerosMat 2 1) (zerosMat 2 3) (zerosMat 2 4) (zerosMat 2 5)
    (zerosMat 3 2) (zerosMat 3 2) (zerosMat 3 2) (zerosMat 3 2)
    rfl rfl rfl (by decide) (by decide) (by decide) (by decide) (by decide)
    rfl rfl rfl (by decide) (by decide) (by decide) (by decide) (by decide)

/-- C8: `demo` builds four synthetic layers of widths 50, 1000, 200, 500 with
n_samples rows, runs `fit_transform` with n_components = 10, and returns the
joint latent; for n_samples = 50 and seed 42 it succeeds with output shape
(50, 10). -/
theorem C8_demo_shape (K : PCAKernel) (hK : KernelShapeOK K)
    (g : SyntheticGen) (hg : GenShapeOK g) :
    ∃ out ig, demo K g 50 (some 42) = (.ok out, ig) ∧
      out.rows = 50 ∧ out.cols = 10 := by
  have h0 := hg (some 42) 0 50 50
  have h1 := hg (some 42) 1 50 1000
  have h2 := hg (some 42) 2 50 200
  have h3 := hg (some 42) 3 50 500
  unfold demo
  refine ⟨_, _, fitTransform_success K hK 10 (some 42) _ _ _ _
    (by rw [h1.1, h0.1]) (by rw [h2.1, h0.1]) (by rw [h3.1, h0.1])
    (by rw [h0.1]; omega) (by rw [h0.2.1]; omega) (by rw [h1.2.1]; omega)
    (by rw [h2.2.1]; omega) (by rw [h3.2.1]; omega), ?_, ?_⟩
  · rw [(hK 10 (some 42) _).1]
    simp [jointInput, Mat.hstack4, Mat.hstack2, (hK 10 (some 42) _).1, h0.1]
  · exact (hK 10 (some 42) _).2.1

/-- Witness for C8 with the concrete kernel and generator. -/
theorem C8_demo_shape_witness :
    ∃ out ig, demo K0 g0 50 (some 42) = (.ok out, ig) ∧
      out.rows = 50 ∧ out.cols = 10 :=
  C8_demo_shape K0 K0_shape_ok g0 g0_shape_ok

/-- C9: a successful `fit_transform` call mutates exactly the five reducers:
afterwards each retains the basis fitted on that call's data, while the
integrator's configuration fields n_components and random_state are
unchanged. -/
theorem C9_mutates_exactly_reducers (K : PCAKernel) (hK : KernelShapeOK K)
    (k : Nat) (seed : Option Int) (m b s c : Mat)
    (hb : b.rows = m.rows) (hs : s.rows = m.rows) (hc : c.rows = m.rows)
    (hn : k ≤ m.rows) (hcm : k ≤ m.cols) (hcb : k ≤ b.cols)
    (hcs : k ≤ s.cols) (hcc : k ≤ c.cols) :
    (∃ out, (MultiOmicsIntegrator.fitTransform K
      (MultiOmicsIntegrator.make k seed) m b s c).1 = .ok out) ∧
    (MultiOmicsIntegrator.fitTransform K (MultiOmicsIntegrator.make k seed)
      m b s c).2.n_components = (MultiOmicsIntegrator.make k seed).n_components ∧
    (MultiOmicsIntegrator.fitTransform K (MultiOmicsIntegrator.make k seed)
      m b s c).2.random_state = (MultiOmicsIntegrator.make k seed).random_state ∧
    (MultiOmicsIntegrator.fitTransform K (MultiOmicsIntegrator.make k seed)
      m b s c).2.pca_metabolomics.fitted = some (K.fitBasis k seed m) ∧
    (MultiOmicsIntegrator.fitTransform K (MultiOmicsIntegrator.make k seed)
      m b s c).2.pca_bulk_rna.fitted = some (K.fitBasis k seed b) ∧
    (MultiOmicsIntegrator.fitTransform K (MultiOmicsIntegrator.make k seed)
      m b s c).2.pca_spatial.fitted = some (K.fitBasis k seed s) ∧
    (MultiOmicsIntegrator.fitTransform K (MultiOmicsIntegrator.make k seed)
      m b s c).2.pca_sc_rna.fitted = some (K.fitBasis k seed c) ∧
    (MultiOmicsIntegrator.fitTransform K (MultiOmicsIntegrator.make k seed)
      m b s c).2.pca_joint.fitted =
      some (K.fitBasis k seed (jointInput K k seed m b s c)) := by
  rw [fitTransform_success K hK k seed m b s c hb hs hc hn hcm hcb hcs hcc]
  exact ⟨⟨_, rfl⟩, rfl, rfl, rfl, rfl, rfl, rfl, rfl⟩

/-- Witness for C9 at concrete data. -/
theorem C9_mutates_exactly_reducers_witness :
    (∃ out, (MultiOmicsIntegrator.fitTransform K0
      (MultiOmicsIntegrator.make 1 none) (zerosMat 2 1) (zerosMat 2 3)
      (zerosMat 2 4) (zerosMat 2 5)).1 = .ok out) ∧
    (MultiOmicsIntegrator.fitTransform K0 (MultiOmicsIntegrator.make 1 none)
      (zerosMat 2 1) (zerosMat 2 3) (zerosMat 2 4)
      (zerosMat 2 5)).2.n_components =
      (MultiOmicsIntegrator.make 1 none).n_components ∧
    (MultiOmicsIntegrator.fitTransform K0 (MultiOmicsIntegrator.make 1 none)
      (zerosMat 2 1) (zerosMat 2 3) (zerosMat 2 4)
      (zerosMat 2 5)).2.random_state =
      (MultiOmicsIntegrator.make 1 none).random_state ∧
    (MultiOmicsIntegrator.fitTransform K0 (MultiOmicsIntegrator.make 1 none)
      (zerosMat 2 1) (zerosMat 2 3) (zerosMat 2 4)
      (zerosMat 2 5)).2.pca_metabolomics.fitted =
      some (K0.fitBasis 1 none (zerosMat 2 1)) ∧
    (MultiOmicsIntegrator.fitTransform K0 (MultiOmicsIntegrator.make 1 none)
      (zerosMat 2 1) (zerosMat 2 3) (zerosMat 2 4)
      (zerosMat 2 5)).2.pca_bulk_rna.fitted =
      some (K0.fitBasis 1 none (zerosMat 2 3)) ∧
    (MultiOmicsIntegrator.fitTransform K0 (MultiOmicsIntegrator.make 1 none)
      (zerosMat 2 1) (zerosMat 2 3) (zerosMat 2 4)
      (zerosMat 2 5)).2.pca_spatial.fitted =
      some (K0.fitBasis 1 none (zerosMat 2 4)) ∧
    (MultiOmicsIntegrator.fitTransform K0 (MultiOmicsIntegrator.make 1 none)
      (zerosMat 2 1) (zerosMat 2 3) (zerosMat 2 4)
      (zerosMat 2 5)).2.pca_sc_rna.fitted =
      some (K0.fitBasis 1 none (zerosMat 2 5)) ∧
    (MultiOmicsIntegrator.fitTransform K0 (MultiOmicsIntegrator.make 1 none)
      (zerosMat 2 1) (zerosMat 2 3) (zerosMat 2 4)
      (zerosMat 2 5)).2.pca_joint.fitted =
      some (K0.fitBasis 1 none (jointInput K0 1 none (zerosMat 2 1)
        (zerosMat 2 3) (zerosMat 2 4) (zerosMat 2 5))) :=
  C9_mutates_exactly_reducers K0 K0_shape_ok 1 none
    (zerosMat 2 1) (zerosMat 2 3) (zerosMat 2 4) (zerosMat 2 5)
    rfl rfl rfl (by decide) (by decide) (by decide) (by decide) (by decide)

/-- C10: `fit_transform` never modifies its four input arrays: on every call
frame, successful or failing, the four argument matrices in the frame are
unchanged when the call returns or raises. -/
theorem C10_inputs_unchanged (K : PCAKernel) (st : CallFrame) :
    (fitTransformFrame K st).2.metabolomics = st.metabolomics ∧
    (fitTransformFrame K st).2.bulk_rna = st.bulk_rna ∧
    (fitTransformFrame K st).2.spatial_trans = st.spatial_trans ∧
    (fitTransformFrame K st).2.sc_rna = st.sc_rna := by
  obtain ⟨ig, m, b, s, c⟩ := st
  unfold fitTransformFrame
  simp only []
  by_cases h : b.rows = m.rows ∧ s.rows = m.rows ∧ c.rows = m.rows
  · rw [if_pos h]
    rcases PCA.fitTransform K ig.pca_metabolomics m with e | ⟨l1, p1⟩
    · exact ⟨rfl, rfl, rfl, rfl⟩
    · simp only []
      rcases PCA.fitTransform K ig.pca_bulk_rna b with e | ⟨l2, p2⟩
      · exact ⟨rfl, rfl, rfl, rfl⟩
      · simp only []
        rcases PCA.fitTransform K ig.pca_spatial s with e | ⟨l3, p3⟩
        · exact ⟨rfl, rfl, rfl, rfl⟩
        · simp only []
          rcases PCA.fitTransform K ig.pca_sc_rna c with e | ⟨l4, p4⟩
          · exact ⟨rfl, rfl, rfl, rfl⟩
          · simp only []
            rcases PCA.fitTransform K ig.pca_joint
                (Mat.hstack4 l1 l2 l3 l4) with e | ⟨l5, p5⟩
            · exact ⟨rfl, rfl, rfl, rfl⟩
            · exact ⟨rfl, rfl, rfl, rfl⟩
  · rw [if_neg h]
    exact ⟨rfl, rfl, rfl, rfl⟩
